import Mathlib

/-!
Shallow embedding of the tgalloc type-generic allocation facade
(files tgalloc.h, tgalloc_default.h, __tgalloc_c23.h of the repository).

Pointers are modelled as `Option Nat` with `none` playing the role of the
C null pointer.  The lvalues of pointer type that the facade macros assign
into (the `ptr` argument of `palloc`, the slot `*(pptr)` of `ppalloc` and
`pprealloc`) are slots of an environment `Nat → Option Nat`, indexed by
slot id.  A C type `T` is modelled by its element descriptor: storage size
(`sizeof`) and natural alignment (`alignof`) in bytes.  Machine `size_t`
arithmetic is `Nat` reduced modulo `2 ^ w` for a word width `w` (the bit
width of `size_t`), made explicit where the code multiplies.

A backend is the three-operation record of tgalloc.h: allocation and
reallocation may fail (they return `none`) and may update an abstract
backend state `St`; the opaque instance handle has an arbitrary type
`Inst`.  The default backend delegates to the general-purpose heap
primitives `malloc`, `realloc`, `free`, which are themselves modelled as
an abstract record `HeapPrims`, with a concrete instantiation `cHeapPrims`
whose `free` is a no-op on `NULL` as ISO C guarantees.
-/

namespace Tgalloc

/-- A C pointer value; `none` is the null pointer `NULL`. -/
abbrev Ptr := Option Nat

/-- The environment of pointer-typed slots the facade macros assign into. -/
abbrev Env := Nat → Ptr

/-- Element descriptor of a C type: `sizeof(T)` and the natural alignment
`alignof(T)`, both in bytes. -/
structure Ty where
  size : Nat
  align : Nat

/-- The three-operation backend contract of tgalloc.h: `TGA_ALLOC_A_S`,
`TGA_REALLOC_A_S`, `TGA_FREE_A_S`, each taking the opaque instance handle
first, then alignment/size parameters; allocation and reallocation return
a pointer or null, and all three may update the backend state. -/
structure Backend (Inst St : Type) where
  alloc : Inst → Nat → Nat → St → Ptr × St
  realloc : Inst → Ptr → Nat → Nat → Nat → St → Ptr × St
  free : Inst → Ptr → Nat → Nat → St → St

/-- The alignment deriver `_tgalloc_alignof(ptr)` in its primary branch:
`alignof(T)` of the pointee type, i.e. the natural alignment. -/
def _tgalloc_alignof (T : Ty) : Nat := T.align

/-- The fallback branch of `_tgalloc_alignof_impl` used when `alignof` is
unavailable: `((sizeof(T) < sizeof(void*)) ? sizeof(T) : sizeof(void*))`,
with `ptrSize` standing for `sizeof(void*)`. -/
def _tgalloc_alignof_fallback (ptrSize : Nat) (T : Ty) : Nat :=
  if T.size < ptrSize then T.size else ptrSize

/-- The size deriver `_tgalloc_sizeof(ptr) = sizeof(*(ptr))`. -/
def _tgalloc_sizeof (T : Ty) : Nat := T.size

/-- The array size `_tgalloc_sizeof_n(ptr, n) = sizeof(*(ptr)) * (n)`,
computed in the machine's unsigned `size_t` arithmetic, i.e. modulo
`2 ^ w`. -/
def _tgalloc_sizeof_n (w : Nat) (T : Ty) (n : Nat) : Nat :=
  T.size * n % 2 ^ w

/-- Assignment into a pointer-typed slot: `(ptr) = e`. -/
def updateEnv (env : Env) (slot : Nat) (p : Ptr) : Env :=
  fun i => if i = slot then p else env i

/-- Result of a facade allocation call: the updated slot environment, the
updated backend state, and the value of the whole assignment expression
(returned for chaining). -/
structure PallocResult (St : Type) where
  env : Env
  st : St
  ret : Ptr

/-- `_tgalloc_palloc1(ptr)`: single-object allocation, the expansion of the
zero-count-argument `palloc(ptr)`.  Calls the active backend's allocate
with `_tgalloc_alignof(ptr)` and `_tgalloc_sizeof(ptr)` and assigns the
result into the slot. -/
def _tgalloc_palloc1 {Inst St : Type} (B : Backend Inst St) (inst : Inst)
    (T : Ty) (env : Env) (slot : Nat) (st : St) : PallocResult St :=
  let r := B.alloc inst (_tgalloc_alignof T) (_tgalloc_sizeof T) st
  ⟨updateEnv env slot r.1, r.2, r.1⟩

/-- `_tgalloc_palloc2(ptr, len)`: array allocation, the expansion of the
one-count-argument `palloc(ptr, len)`.  Calls the active backend's
allocate with `_tgalloc_alignof(ptr)` and `_tgalloc_sizeof_n(ptr, len)`
and assigns the result into the slot. -/
def _tgalloc_palloc2 {Inst St : Type} (w : Nat) (B : Backend Inst St)
    (inst : Inst) (T : Ty) (env : Env) (slot len : Nat) (st : St) :
    PallocResult St :=
  let r := B.alloc inst (_tgalloc_alignof T) (_tgalloc_sizeof_n w T len) st
  ⟨updateEnv env slot r.1, r.2, r.1⟩

/-- `_tgalloc_pfree1(ptr)`: single-object free, the expansion of the
zero-count-argument `pfree(ptr)`.  Calls the active backend's free with
the pointer value, `_tgalloc_alignof(ptr)` and `_tgalloc_sizeof(ptr)`. -/
def _tgalloc_pfree1 {Inst St : Type} (B : Backend Inst St) (inst : Inst)
    (T : Ty) (p : Ptr) (st : St) : St :=
  B.free inst p (_tgalloc_alignof T) (_tgalloc_sizeof T) st

/-- `_tgalloc_pfree2(ptr, len)`: array free, the expansion of the
one-count-argument `pfree(ptr, len)`. -/
def _tgalloc_pfree2 {Inst St : Type} (w : Nat) (B : Backend Inst St)
    (inst : Inst) (T : Ty) (p : Ptr) (len : Nat) (st : St) : St :=
  B.free inst p (_tgalloc_alignof T) (_tgalloc_sizeof_n w T len) st

/-- `ppalloc(pptr) = palloc(*(pptr))`: the pointer-to-pointer `pptr` is
modelled by the id of the inner slot it points to, so dereferencing one
level of indirection yields that slot, on which `palloc` then acts. -/
def ppalloc1 {Inst St : Type} (B : Backend Inst St) (inst : Inst) (T : Ty)
    (env : Env) (pptr : Nat) (st : St) : PallocResult St :=
  _tgalloc_palloc1 B inst T env pptr st

/-- `ppalloc(pptr, len) = palloc(*(pptr), len)`: the array variant of the
indirect allocation. -/
def ppalloc2 {Inst St : Type} (w : Nat) (B : Backend Inst St) (inst : Inst)
    (T : Ty) (env : Env) (pptr len : Nat) (st : St) : PallocResult St :=
  _tgalloc_palloc2 w B inst T env pptr len st

/-- `_tgalloc_realloc2(ptr, old_len, new_len)`: calls the active backend's
reallocate with the pointer value, `_tgalloc_alignof(ptr)`, and the old
and new byte sizes `_tgalloc_sizeof_n(ptr, old_len)` and
`_tgalloc_sizeof_n(ptr, new_len)`. -/
def _tgalloc_realloc2 {Inst St : Type} (w : Nat) (B : Backend Inst St)
    (inst : Inst) (T : Ty) (p : Ptr) (old_len new_len : Nat) (st : St) :
    Ptr × St :=
  B.realloc inst p (_tgalloc_alignof T)
    (_tgalloc_sizeof_n w T old_len) (_tgalloc_sizeof_n w T new_len) st

/-- `pprealloc(pptr, old_len, new_len) = (*(pptr) =
_tgalloc_realloc2(*(pptr), old_len, new_len))`: reads the dereferenced
slot, calls the backend's reallocate, and unconditionally assigns the
result back into the slot. -/
def pprealloc {Inst St : Type} (w : Nat) (B : Backend Inst St) (inst : Inst)
    (T : Ty) (env : Env) (pptr old_len new_len : Nat) (st : St) :
    PallocResult St :=
  let r := _tgalloc_realloc2 w B inst T (env pptr) old_len new_len st
  ⟨updateEnv env pptr r.1, r.2, r.1⟩

/-- The general-purpose heap primitives the default backend delegates to:
`malloc(size)`, `realloc(ptr, new_size)`, `free(ptr)`, over an abstract
heap state. -/
structure HeapPrims (St : Type) where
  malloc : Nat → St → Ptr × St
  realloc : Ptr → Nat → St → Ptr × St
  free : Ptr → St → St

/-- The default allocator instance handle `(dflt_allo_t*)NULL`. -/
def ALLO : Option Unit := none

/-- Default allocation function: ignores `self` and `alignment` and returns
`malloc(size)`. -/
def _tgalloc_dflt_alloc_aligned_sized {St : Type} (H : HeapPrims St)
    (self : Option Unit) (alignment size : Nat) (st : St) : Ptr × St :=
  H.malloc size st

/-- Default reallocation function: ignores `self`, `alignment` and
`old_size` and returns `realloc(ptr, new_size)`. -/
def _tgalloc_dflt_realloc_aligned_sized {St : Type} (H : HeapPrims St)
    (self : Option Unit) (p : Ptr) (alignment old_size new_size : Nat)
    (st : St) : Ptr × St :=
  H.realloc p new_size st

/-- Default deallocation function: ignores `self`, `alignment` and `size`
and calls `free(ptr)`. -/
def _tgalloc_dflt_free_aligned_sized {St : Type} (H : HeapPrims St)
    (self : Option Unit) (p : Ptr) (alignment size : Nat) (st : St) : St :=
  H.free p st

/-- The default backend binding of tgalloc_default.h: the three default
functions over a given set of heap primitives. -/
def dfltBackend {St : Type} (H : HeapPrims St) : Backend (Option Unit) St :=
  ⟨_tgalloc_dflt_alloc_aligned_sized H,
   _tgalloc_dflt_realloc_aligned_sized H,
   _tgalloc_dflt_free_aligned_sized H⟩

/-- A concrete model of the C heap: a fresh-address counter and the list of
currently allocated blocks as (address, size) pairs. -/
structure CHeap where
  next : Nat
  blocks : List (Nat × Nat)
  deriving DecidableEq

/-- Model of libc `malloc(size)`: hands out a fresh nonnull address and
records the block. -/
def c_malloc (size : Nat) (h : CHeap) : Ptr × CHeap :=
  (some h.next, ⟨h.next + size + 1, (h.next, size) :: h.blocks⟩)

/-- Model of libc `free(ptr)`: ISO C guarantees `free(NULL)` is a no-op;
on a nonnull pointer the block at that address is removed. -/
def c_free (p : Ptr) (h : CHeap) : CHeap :=
  match p with
  | none => h
  | some a => ⟨h.next, h.blocks.filter (fun b => b.1 ≠ a)⟩

/-- Model of libc `realloc(ptr, new_size)`: on `NULL` behaves as `malloc`;
otherwise releases the old block and allocates afresh. -/
def c_realloc (p : Ptr) (new_size : Nat) (h : CHeap) : Ptr × CHeap :=
  match p with
  | none => c_malloc new_size h
  | some a => c_malloc new_size (c_free (some a) h)

/-- The concrete libc heap primitives. -/
def cHeapPrims : HeapPrims CHeap := ⟨c_malloc, c_realloc, c_free⟩

/-- A stateless test backend whose allocate and reallocate always return
the fixed pointer `p` and whose free does nothing; with `p = none` it is a
backend that always fails. -/
def constBackend (p : Ptr) : Backend Unit Unit :=
  ⟨fun _ _ _ st => (p, st),
   fun _ _ _ _ _ st => (p, st),
   fun _ _ _ _ st => st⟩

/-- A test backend over the concrete heap whose reallocate always fails
while leaving the heap state, and hence every allocated block, intact. -/
def failReallocBackend : Backend Unit CHeap :=
  ⟨fun _ _ _ st => (none, st),
   fun _ _ _ _ _ st => (none, st),
   fun _ _ _ _ st => st⟩

/-- C1: for every type `T` and count `len`, if the active backend's
allocate returns null, then `_tgalloc_palloc1` (the expansion of
`palloc(ptr)` and, through one dereference, of `ppalloc(pptr)`) and
`_tgalloc_palloc2` (the array forms) assign null into the caller's slot,
the value of the call is that null pointer, no other slot changes, and
the backend state is exactly the state the failed allocate returned — the
facade performs no other action with the failed result. -/
theorem palloc_failure_propagates_null {Inst St : Type} (B : Backend Inst St)
    (inst : Inst) (T : Ty) (w : Nat) (env : Env) (slot len : Nat) (st : St) :
    ((B.alloc inst (_tgalloc_alignof T) (_tgalloc_sizeof T) st).1 = none →
      (_tgalloc_palloc1 B inst T env slot st).ret = none ∧
      (_tgalloc_palloc1 B inst T env slot st).env slot = none ∧
      (∀ i, i ≠ slot → (_tgalloc_palloc1 B inst T env slot st).env i = env i) ∧
      (_tgalloc_palloc1 B inst T env slot st).st =
        (B.alloc inst (_tgalloc_alignof T) (_tgalloc_sizeof T) st).2) ∧
    ((B.alloc inst (_tgalloc_alignof T) (_tgalloc_sizeof_n w T len) st).1 = none →
      (_tgalloc_palloc2 w B inst T env slot len st).ret = none ∧
      (_tgalloc_palloc2 w B inst T env slot len st).env slot = none ∧
      (∀ i, i ≠ slot → (_tgalloc_palloc2 w B inst T env slot len st).env i = env i) ∧
      (_tgalloc_palloc2 w B inst T env slot len st).st =
        (B.alloc inst (_tgalloc_alignof T) (_tgalloc_sizeof_n w T len) st).2) := by
  constructor <;> intro h <;> refine ⟨h, ?_, fun i hi => ?_, rfl⟩
  · simp [_tgalloc_palloc1, updateEnv, h]
  · simp [_tgalloc_palloc1, updateEnv, hi]
  · simp [_tgalloc_palloc2, updateEnv, h]
  · simp [_tgalloc_palloc2, updateEnv, hi]

/-- Witness for C1 at the always-failing backend: both allocation forms
leave null in slot 0 and return null. -/
theorem palloc_failure_propagates_null_witness :
    (_tgalloc_palloc1 (constBackend none) () ⟨4, 4⟩ (fun _ => some 7) 0 ()).ret = none ∧
    (_tgalloc_palloc1 (constBackend none) () ⟨4, 4⟩ (fun _ => some 7) 0 ()).env 0 = none ∧
    (_tgalloc_palloc2 3 (constBackend none) () ⟨4, 4⟩ (fun _ => some 7) 0 2 ()).ret = none ∧
    (_tgalloc_palloc2 3 (constBackend none) () ⟨4, 4⟩ (fun _ => some 7) 0 2 ()).env 0 = none := by
  have h := palloc_failure_propagates_null (constBackend none) () ⟨4, 4⟩ 3
    (fun _ => some 7) 0 2 ()
  exact ⟨(h.1 rfl).1, (h.1 rfl).2.1, (h.2 rfl).1, (h.2 rfl).2.1⟩

/-- C2: for every type `T` and count `n` with `sizeof(T) * n` not
overflowing `size_t`, the array allocation `_tgalloc_palloc2` calls the
active backend's allocate with size exactly `sizeof(T) * n` and alignment
exactly the natural alignment of `T`, and assigns the returned pointer
into the caller's slot. -/
theorem palloc2_calls_backend_with_exact_size {Inst St : Type}
    (B : Backend Inst St) (inst : Inst) (T : Ty) (w : Nat) (env : Env)
    (slot n : Nat) (st : St) (h : T.size * n < 2 ^ w) :
    _tgalloc_palloc2 w B inst T env slot n st =
      ⟨updateEnv env slot (B.alloc inst T.align (T.size * n) st).1,
       (B.alloc inst T.align (T.size * n) st).2,
       (B.alloc inst T.align (T.size * n) st).1⟩ := by
  simp [_tgalloc_palloc2, _tgalloc_sizeof_n, _tgalloc_alignof,
    Nat.mod_eq_of_lt h]

/-- Witness for C2 with `w = 8`, `sizeof(T) = 4`, `n = 3`: the product 12
does not overflow and the backend sees size 12 and alignment 4. -/
theorem palloc2_calls_backend_with_exact_size_witness :
    4 * 3 < 2 ^ 8 ∧
    _tgalloc_palloc2 8 (constBackend (some 5)) () ⟨4, 4⟩ (fun _ => none) 0 3 () =
      ⟨updateEnv (fun _ => none) 0
        ((constBackend (some 5)).alloc () 4 (4 * 3) ()).1,
       ((constBackend (some 5)).alloc () 4 (4 * 3) ()).2,
       ((constBackend (some 5)).alloc () 4 (4 * 3) ()).1⟩ :=
  ⟨by decide,
   palloc2_calls_backend_with_exact_size (constBackend (some 5)) () ⟨4, 4⟩ 8
     (fun _ => none) 0 3 () (by decide)⟩

/-- C3: for every slot `pptr` and counts `old_len`, `new_len` whose byte
sizes do not overflow, `pprealloc` calls the active backend's reallocate
with the dereferenced pointer, old size `sizeof(T) * old_len` and new
size `sizeof(T) * new_len`, and assigns the returned value into the
dereferenced slot. -/
theorem pprealloc_calls_backend_with_derived_sizes {Inst St : Type}
    (B : Backend Inst St) (inst : Inst) (T : Ty) (w : Nat) (env : Env)
    (pptr old_len new_len : Nat) (st : St)
    (hold : T.size * old_len < 2 ^ w) (hnew : T.size * new_len < 2 ^ w) :
    pprealloc w B inst T env pptr old_len new_len st =
      ⟨updateEnv env pptr
        (B.realloc inst (env pptr) T.align (T.size * old_len) (T.size * new_len) st).1,
       (B.realloc inst (env pptr) T.align (T.size * old_len) (T.size * new_len) st).2,
       (B.realloc inst (env pptr) T.align (T.size * old_len) (T.size * new_len) st).1⟩ := by
  simp [pprealloc, _tgalloc_realloc2, _tgalloc_sizeof_n, _tgalloc_alignof,
    Nat.mod_eq_of_lt hold, Nat.mod_eq_of_lt hnew]

/-- Witness for C3 with `w = 8`, `sizeof(T) = 2`, old count 3, new count
5: the backend sees old size 6 and new size 10. -/
theorem pprealloc_calls_backend_with_derived_sizes_witness :
    2 * 3 < 2 ^ 8 ∧ 2 * 5 < 2 ^ 8 ∧
    pprealloc 8 (constBackend (some 9)) () ⟨2, 2⟩ (fun _ => some 4) 1 3 5 () =
      ⟨updateEnv (fun _ => some 4) 1
        ((constBackend (some 9)).realloc () (some 4) 2 (2 * 3) (2 * 5) ()).1,
       ((constBackend (some 9)).realloc () (some 4) 2 (2 * 3) (2 * 5) ()).2,
       ((constBackend (some 9)).realloc () (some 4) 2 (2 * 3) (2 * 5) ()).1⟩ :=
  ⟨by decide, by decide,
   pprealloc_calls_backend_with_derived_sizes (constBackend (some 9)) () ⟨2, 2⟩ 8
     (fun _ => some 4) 1 3 5 () (by decide) (by decide)⟩

/-- C4: if the active backend's reallocate returns null, `pprealloc`
still overwrites the caller's dereferenced slot with that null, so the
slot no longer holds the original pointer whenever it was nonnull; the
backend state is passed through untouched, so a backend that preserved
the original region (as the default realloc-based one does) still has it,
but the caller has lost the pointer. -/
theorem pprealloc_failure_overwrites_slot {Inst St : Type}
    (B : Backend Inst St) (inst : Inst) (T : Ty) (w : Nat) (env : Env)
    (pptr old_len new_len : Nat) (st : St)
    (hfail : (B.realloc inst (env pptr) (_tgalloc_alignof T)
      (_tgalloc_sizeof_n w T old_len) (_tgalloc_sizeof_n w T new_len) st).1 = none) :
    (pprealloc w B inst T env pptr old_len new_len st).env pptr = none ∧
    (pprealloc w B inst T env pptr old_len new_len st).ret = none ∧
    (pprealloc w B inst T env pptr old_len new_len st).st =
      (B.realloc inst (env pptr) (_tgalloc_alignof T)
        (_tgalloc_sizeof_n w T old_len) (_tgalloc_sizeof_n w T new_len) st).2 ∧
    (env pptr ≠ none →
      (pprealloc w B inst T env pptr old_len new_len st).env pptr ≠ env pptr) := by
  refine ⟨?_, hfail, rfl, ?_⟩
  · simp [pprealloc, _tgalloc_realloc2, updateEnv, hfail]
  · intro hp
    simp [pprealloc, _tgalloc_realloc2, updateEnv, hfail]
    exact fun hc => hp hc.symm

/-- Witness for C4 at the failing-reallocate backend over the concrete
heap: slot 0 held address 5, whose block of 12 bytes is still recorded in
the unchanged heap, yet after the failed `pprealloc` the slot is null. -/
theorem pprealloc_failure_overwrites_slot_witness :
    (pprealloc 8 failReallocBackend () ⟨4, 4⟩ (fun _ => some 5) 0 3 5
      ⟨18, [(5, 12)]⟩).env 0 = none ∧
    (pprealloc 8 failReallocBackend () ⟨4, 4⟩ (fun _ => some 5) 0 3 5
      ⟨18, [(5, 12)]⟩).st = ⟨18, [(5, 12)]⟩ ∧
    (pprealloc 8 failReallocBackend () ⟨4, 4⟩ (fun _ => some 5) 0 3 5
      ⟨18, [(5, 12)]⟩).env 0 ≠ (fun _ => some 5) 0 := by
  have h := pprealloc_failure_overwrites_slot failReallocBackend () ⟨4, 4⟩ 8
    (fun _ => some 5) 0 3 5 ⟨18, [(5, 12)]⟩ rfl
  exact ⟨h.1, h.2.2.1, h.2.2.2 (by simp)⟩

/-- C5: the fallback alignment used when `alignof` is unavailable equals
`min(sizeof(T), sizeof(void*))`: it is never larger than the platform
pointer width and never larger than the object itself. -/
theorem alignof_fallback_is_min (ptrSize : Nat) (T : Ty) :
    _tgalloc_alignof_fallback ptrSize T = min T.size ptrSize ∧
    _tgalloc_alignof_fallback ptrSize T ≤ ptrSize ∧
    _tgalloc_alignof_fallback ptrSize T ≤ T.size := by
  unfold _tgalloc_alignof_fallback
  refine ⟨?_, ?_, ?_⟩ <;> split <;> omega

/-- C6: for every type `T` whose size is representable in `size_t` (as
`sizeof(T)` always is), the single-object expansion `_tgalloc_palloc1`
of `palloc(ptr)` and the array expansion `_tgalloc_palloc2` of
`palloc(ptr, 1)` make exactly the same backend call — same size
`sizeof(T)` and same alignment — so on success they produce equivalent
results; likewise `_tgalloc_pfree1` of `pfree(ptr)` and `_tgalloc_pfree2`
of `pfree(ptr, 1)` pass the same size and alignment to the backend's
free. -/
theorem palloc_single_eq_array_one {Inst St : Type} (B : Backend Inst St)
    (inst : Inst) (T : Ty) (w : Nat) (env : Env) (slot : Nat) (p : Ptr)
    (st st2 : St) (h : T.size < 2 ^ w) :
    _tgalloc_palloc1 B inst T env slot st =
      _tgalloc_palloc2 w B inst T env slot 1 st ∧
    _tgalloc_pfree1 B inst T p st2 = _tgalloc_pfree2 w B inst T p 1 st2 := by
  have hs : _tgalloc_sizeof_n w T 1 = _tgalloc_sizeof T := by
    simp [_tgalloc_sizeof_n, _tgalloc_sizeof, Nat.mod_eq_of_lt h]
  exact ⟨by simp [_tgalloc_palloc1, _tgalloc_palloc2, hs],
         by simp [_tgalloc_pfree1, _tgalloc_pfree2, hs]⟩

/-- Witness for C6 with `w = 8` and `sizeof(T) = 4 < 256`. -/
theorem palloc_single_eq_array_one_witness :
    4 < 2 ^ 8 ∧
    (_tgalloc_palloc1 (constBackend (some 3)) () ⟨4, 4⟩ (fun _ => none) 0 () =
      _tgalloc_palloc2 8 (constBackend (some 3)) () ⟨4, 4⟩ (fun _ => none) 0 1 () ∧
     _tgalloc_pfree1 (constBackend (some 3)) () ⟨4, 4⟩ (some 3) () =
      _tgalloc_pfree2 8 (constBackend (some 3)) () ⟨4, 4⟩ (some 3) 1 ()) :=
  ⟨by decide,
   palloc_single_eq_array_one (constBackend (some 3)) () ⟨4, 4⟩ 8
     (fun _ => none) 0 (some 3) () () (by decide)⟩

/-- C7: the indirect allocation `ppalloc(pptr, ...)` is exactly `palloc`
applied to the once-dereferenced inner slot with the same arguments: the
same backend call is made and the same value is left in the slot
`*(pptr)`, in both the single-object and the array form. -/
theorem ppalloc_eq_palloc_on_deref {Inst St : Type} (B : Backend Inst St)
    (inst : Inst) (T : Ty) (w : Nat) (env : Env) (pptr len : Nat) (st : St) :
    ppalloc1 B inst T env pptr st = _tgalloc_palloc1 B inst T env pptr st ∧
    ppalloc2 w B inst T env pptr len st =
      _tgalloc_palloc2 w B inst T env pptr len st :=
  ⟨rfl, rfl⟩

/-- C8: under the default backend, freeing a null pointer with
`_tgalloc_pfree1` (the expansion of `pfree(ptr)`) or `_tgalloc_pfree2`
(the expansion of `pfree(ptr, len)`) is a no-op for every type and count:
the call returns and the heap state — and hence every allocated block —
is left exactly unchanged. -/
theorem pfree_null_is_noop (T : Ty) (w len : Nat) (st : CHeap) :
    _tgalloc_pfree1 (dfltBackend cHeapPrims) ALLO T none st = st ∧
    _tgalloc_pfree2 w (dfltBackend cHeapPrims) ALLO T none len st = st :=
  ⟨rfl, rfl⟩

/-- C9: the default backend's allocate returns exactly what the heap
primitive `malloc(size)` returns, for every heap, instance handle and
alignment: the result depends only on the size; instance and alignment
are accepted but have no effect. -/
theorem dflt_alloc_is_malloc_of_size {St : Type} (H : HeapPrims St)
    (self self2 : Option Unit) (a a2 s : Nat) (st : St) :
    _tgalloc_dflt_alloc_aligned_sized H self a s st = H.malloc s st ∧
    _tgalloc_dflt_alloc_aligned_sized H self a s st =
      _tgalloc_dflt_alloc_aligned_sized H self2 a2 s st :=
  ⟨rfl, rfl⟩

/-- C10: for every type `T` and count `n`, no overflow or negativity
validation happens: the byte size `_tgalloc_sizeof_n` is the product
`sizeof(T) * n` reduced modulo `2 ^ w`, and `_tgalloc_palloc2` and
`_tgalloc_pfree2` pass exactly that wrapped value to the backend with no
error path; concretely, with a 4-bit size type, an element size of 6 and
a count of 3 the product 18 wraps to 2, and 2 is what the backend is
handed. -/
theorem sizeof_n_wraps_without_validation {Inst St : Type}
    (B : Backend Inst St) (inst : Inst) (T : Ty) (w : Nat) (env : Env)
    (slot n : Nat) (p : Ptr) (st st2 : St) :
    _tgalloc_sizeof_n w T n = T.size * n % 2 ^ w ∧
    (_tgalloc_palloc2 w B inst T env slot n st =
      ⟨updateEnv env slot (B.alloc inst T.align (T.size * n % 2 ^ w) st).1,
       (B.alloc inst T.align (T.size * n % 2 ^ w) st).2,
       (B.alloc inst T.align (T.size * n % 2 ^ w) st).1⟩) ∧
    (_tgalloc_pfree2 w B inst T p n st2 =
      B.free inst p T.align (T.size * n % 2 ^ w) st2) ∧
    _tgalloc_sizeof_n 4 ⟨6, 4⟩ 3 = 2 ∧ (6 : Nat) * 3 = 18 ∧ (2 : Nat) ≠ 18 :=
  ⟨rfl, rfl, rfl, by decide, by decide, by decide⟩

end Tgalloc
